import Mathlib

/-!
Shallow embedding of the event-processing core of
tinybirdco/kubernetes-event-exporter, covering:

- pkg/kube/watcher.go: the event watcher (age filter, enrichment
  dispatch, counters, handler invocation, the package-global
  startUpTime and its setter);
- pkg/sinks/teams.go and pkg/sinks/loki.go: the response-handling
  slice of the Teams and Loki Send methods.

Machine-level concerns (goroutines, the informer machinery, real HTTP)
are abstracted: the watcher is modelled as a pure function from its
configuration, the shared global state, the incoming event, the
enrichment outcome and the current time to the list of observable
actions it performs (counter increments, warning log, cache lookup,
handler invocation), in the order the Go code performs them.
Timestamps are integers (seconds); the Go zero time.Time is 0.
-/

/-- Mirrors the fields of corev1.ObjectReference used by the watcher
(the involved object of an event). -/
structure ObjectReference where
  APIVersion : String
  Kind : String
  Namespace : String
  Name : String
  UID : String
deriving DecidableEq, Repr

/-- The zero value of ObjectReference (Go zero value: all fields empty). -/
def ObjectReference.zero : ObjectReference :=
  { APIVersion := "", Kind := "", Namespace := "", Name := "", UID := "" }

/-- Mirrors the fields of a metav1.OwnerReference relevant to enrichment. -/
structure OwnerReference where
  Kind : String
  Name : String
  UID : String
  Controller : Bool
deriving DecidableEq, Repr

/-- Mirrors corev1.EventSeries: repeat count and last-observed time. -/
structure EventSeries where
  Count : Nat
  LastObservedTime : Int
deriving DecidableEq, Repr

/-- Mirrors the fields of corev1.Event the watcher reads. Timestamps are
integers with 0 as the Go zero time; a nil Series pointer is none. -/
structure Event where
  Name : String
  Namespace : String
  Message : String
  Reason : String
  InvolvedObject : ObjectReference
  FirstTimestamp : Int
  LastTimestamp : Int
  EventTime : Int
  Series : Option EventSeries
  Count : Nat
  ManagedFields : List String
deriving DecidableEq, Repr

/-- Result of a metadata lookup, mirrors kube.ObjectMetadata as consumed
by watcher.go lines 133-137. -/
structure ObjectMetadata where
  Labels : List (String × String)
  Annotations : List (String × String)
  OwnerReferences : List OwnerReference
  Deleted : Bool
deriving DecidableEq, Repr

/-- Modelled from the spec: the EnhancedEvent type itself is declared in
pkg/kube/event.go, which is not among the provided sources; its field set
follows spec section 3 (a RawEvent plus labels, annotations, owner
references and a deletion flag for the involved object) and the field
accesses in watcher.go lines 115-141. This is the enriched involved-object
reference. -/
structure EnhancedObjectReference where
  ObjectReference : ObjectReference
  Labels : List (String × String)
  Annotations : List (String × String)
  OwnerReferences : List OwnerReference
  Deleted : Bool
deriving DecidableEq, Repr

/-- The Go zero value of EnhancedObjectReference (nil maps and slice,
false flag), as produced by the struct literal in watcher.go line 115. -/
def EnhancedObjectReference.zero : EnhancedObjectReference :=
  { ObjectReference := ObjectReference.zero, Labels := [], Annotations := [],
    OwnerReferences := [], Deleted := false }

/-- Modelled from the spec: pkg/kube/event.go is not among the provided
sources; an EnhancedEvent embeds the (deep-copied) raw event and carries
the enriched involved-object reference (spec section 3, and the field
accesses in watcher.go). -/
structure EnhancedEvent where
  Event : Event
  InvolvedObject : EnhancedObjectReference
deriving DecidableEq, Repr

/-- Errors a metadata lookup can return: the api-machinery not-found error
(recognised by errors.IsNotFound) or any other error. -/
inductive LookupError where
  | notFound
  | other (msg : String)
deriving DecidableEq, Repr

/-- Mirrors errors.IsNotFound as used in watcher.go line 125. -/
def isNotFound : LookupError → Bool
  | LookupError.notFound => true
  | LookupError.other _ => false

/-- The package-global state of pkg/kube: watcher.go line 18 declares
startUpTime as a package-level variable shared by every EventWatcher. -/
structure KubeGlobals where
  startUpTime : Int
deriving DecidableEq, Repr

/-- The per-instance configuration of an EventWatcher read by onEvent and
isEventDiscarded (watcher.go lines 22-33): the omitLookup flag and the
maximum event age. The remaining fields (informer, clients, metrics
pointers) carry no decision logic of their own. -/
structure EventWatcher where
  omitLookup : Bool
  maxEventAgeSeconds : Int
deriving DecidableEq, Repr

/-- Observable actions the watcher performs while processing one
notification, in program order: the discard warning log, the
EventsDiscarded counter increment, the EventsProcessed counter increment,
the GetObjectMetadata cache call, and the handler invocation. -/
inductive WatcherAction where
  | warnDiscarded
  | incDiscarded
  | incProcessed
  | lookupMetadata (ref : ObjectReference)
  | invokeHandler (ev : EnhancedEvent)
deriving DecidableEq, Repr

/-- Mirrors the timestamp derivation in isEventDiscarded (watcher.go lines
76-83): the series last-observed time when the event has a series and that
time is non-zero, else the last timestamp when non-zero, else EventTime. -/
def eventTimestamp (event : Event) : Int :=
  match event.Series with
  | some s =>
    if s.LastObservedTime ≠ 0 then s.LastObservedTime
    else if event.LastTimestamp ≠ 0 then event.LastTimestamp
    else event.EventTime
  | none =>
    if event.LastTimestamp ≠ 0 then event.LastTimestamp
    else event.EventTime

/-- Mirrors EventWatcher.isEventDiscarded (watcher.go lines 74-99).
Returns the boolean result together with the side effects performed
(warning log and EventsDiscarded increment, both of which the code
performs only when the timestamp is strictly after startUpTime). now
stands for time.Now; time.Since(t) is now - t; t1.After(t2) is t1 > t2. -/
def isEventDiscarded (g : KubeGlobals) (e : EventWatcher) (event : Event)
    (now : Int) : Bool × List WatcherAction :=
  if now - eventTimestamp event > e.maxEventAgeSeconds then
    if eventTimestamp event > g.startUpTime then
      (true, [WatcherAction.warnDiscarded, WatcherAction.incDiscarded])
    else
      (true, [])
  else
    (false, [])

/-- Mirrors the EnhancedEvent construction in onEvent (watcher.go lines
115-139): deep-copy the raw event, clear ManagedFields, then either pass
the involved-object reference through unresolved (omitLookup), or fill in
the lookup result, treating not-found as deletion and any other error as
an unresolved reference. The lookup argument is the outcome
GetObjectMetadata would return; it is consulted only on the non-omit
path. -/
def buildEnhancedEvent (e : EventWatcher) (event : Event)
    (lookup : Except LookupError ObjectMetadata) : EnhancedEvent :=
  let ev : EnhancedEvent :=
    { Event := { event with ManagedFields := [] },
      InvolvedObject := EnhancedObjectReference.zero }
  if e.omitLookup then
    { ev with InvolvedObject :=
      { ev.InvolvedObject with ObjectReference := event.InvolvedObject } }
  else
    match lookup with
    | Except.error err =>
      let ev2 :=
        if isNotFound err then
          { ev with InvolvedObject := { ev.InvolvedObject with Deleted := true } }
        else ev
      { ev2 with InvolvedObject :=
        { ev2.InvolvedObject with ObjectReference := event.InvolvedObject } }
    | Except.ok objectMetadata =>
      { ev with InvolvedObject :=
        { Labels := objectMetadata.Labels,
          Annotations := objectMetadata.Annotations,
          OwnerReferences := objectMetadata.OwnerReferences,
          ObjectReference := event.InvolvedObject,
          Deleted := objectMetadata.Deleted } }

/-- Mirrors EventWatcher.onEvent (watcher.go lines 101-142) as the list of
observable actions in program order: the discard check (with its own side
effects) guards everything; a surviving event increments EventsProcessed,
then (unless omitLookup) calls GetObjectMetadata, then invokes the
handler with the built EnhancedEvent. -/
def onEvent (g : KubeGlobals) (e : EventWatcher) (event : Event)
    (lookup : Except LookupError ObjectMetadata) (now : Int) :
    List WatcherAction :=
  if (isEventDiscarded g e event now).fst then
    (isEventDiscarded g e event now).snd
  else
    WatcherAction.incProcessed ::
      ((if e.omitLookup then []
        else [WatcherAction.lookupMetadata event.InvolvedObject]) ++
       [WatcherAction.invokeHandler (buildEnhancedEvent e event lookup)])

/-- Mirrors EventWatcher.OnAdd (watcher.go lines 61-64): the notification
object is processed through onEvent; the isInInitialList flag is unused. -/
def OnAdd (g : KubeGlobals) (e : EventWatcher) (obj : Event)
    (isInInitialList : Bool) (lookup : Except LookupError ObjectMetadata)
    (now : Int) : List WatcherAction :=
  onEvent g e obj lookup now

/-- Mirrors EventWatcher.OnUpdate (watcher.go lines 67-71): only the new
object is processed, through the same onEvent path. -/
def OnUpdate (g : KubeGlobals) (e : EventWatcher) (oldObj newObj : Event)
    (lookup : Except LookupError ObjectMetadata) (now : Int) :
    List WatcherAction :=
  onEvent g e newObj lookup now

/-- Mirrors EventWatcher.OnDelete (watcher.go lines 144-146): deletes are
ignored, no action is performed. -/
def OnDelete (obj : Event) : List WatcherAction := []

/-- Mirrors EventWatcher.setStartUpTime (watcher.go lines 161-163): the
method assigns the package-global startUpTime; the receiver is not used. -/
def setStartUpTime (receiver : EventWatcher) (g : KubeGlobals) (t : Int) :
    KubeGlobals :=
  { startUpTime := t }

/-- Spec-side derived timestamp, written from the words of spec section
4.1: (a) the series last-observed time, if the event has an aggregated
series and that time is non-zero, (b) the event's last-timestamp field,
if non-zero, (c) the event's first-observed time (EventTime) as
fallback. Kept separate from eventTimestamp (which mirrors the code) so
the two derivations can be compared. -/
def specDerivedTimestamp (event : Event) : Int :=
  match event.Series with
  | some s =>
    if s.LastObservedTime = 0 then
      if event.LastTimestamp = 0 then event.EventTime else event.LastTimestamp
    else s.LastObservedTime
  | none =>
    if event.LastTimestamp = 0 then event.EventTime else event.LastTimestamp

/-- Mirrors strings.Contains: pat occurs as a contiguous substring of s. -/
def strContains (s pat : String) : Bool :=
  decide (List.IsInfix pat.toList s.toList)

/-- The outcome of the HTTP round trip performed inside a sink's Send:
the client.Do call fails at the transport level, or a response arrives
but reading its body fails, or a response with a status code and a body
is fully read. -/
inductive HttpOutcome where
  | transportError
  | readError (status : Nat)
  | response (status : Nat) (body : String)
deriving DecidableEq, Repr

/-- The body text Teams returns when the connector is rate limited
(teams.go line 77). -/
def teamsRateLimitText : String :=
  "Microsoft Teams endpoint returned HTTP error 429"

/-- Mirrors the response handling of Teams.Send (teams.go lines 60-81),
from the http.DefaultClient.Do call onward. none models a nil error,
some msg a non-nil error. The code returns nil when Do itself fails
(line 62), an error on a body read failure, an error on any non-200
status, and an error on a 200 response whose body reports Teams rate
limiting. -/
def teamsSend : HttpOutcome → Option String
  | HttpOutcome.transportError => none
  | HttpOutcome.readError _ => some "body read error"
  | HttpOutcome.response status body =>
    if status ≠ 200 then some ("not 200: " ++ body)
    else if strContains body teamsRateLimitText then
      some ("rate limited: " ++ body)
    else none

/-- Mirrors the response handling of Loki.Send (loki.go lines 122-139),
from the client.Do call onward: a transport failure or body read failure
returns that error, a non-2xx status returns an error, a 2xx response
returns nil. -/
def lokiSend : HttpOutcome → Option String
  | HttpOutcome.transportError => some "transport error"
  | HttpOutcome.readError _ => some "body read error"
  | HttpOutcome.response status body =>
    if status ≥ 200 ∧ status < 300 then none
    else some ("not successfull (2xx) response: " ++ body)

/-- The involved-object reference Pod/default/web-1 used in concrete
scenarios. -/
def webPodRef : ObjectReference :=
  { APIVersion := "v1", Kind := "Pod", Namespace := "default",
    Name := "web-1", UID := "uid-1" }

/-- A stale event: its derived timestamp (LastTimestamp 100) is far older
than the maximum age used in the concrete scenarios, and precedes the
startup time 1000 used in the C1 scenario. -/
def staleEvent : Event :=
  { Name := "web-1.ev1", Namespace := "default",
    Message := "Back-off restarting failed container", Reason := "BackOff",
    InvolvedObject := webPodRef, FirstTimestamp := 90, LastTimestamp := 100,
    EventTime := 0, Series := none, Count := 3,
    ManagedFields := ["kube-controller-manager"] }

/-- A fresh event: derived timestamp 1990, within the maximum age at the
concrete now values used below. -/
def freshEvent : Event :=
  { staleEvent with Name := "web-1.ev2", LastTimestamp := 1990 }

/-- A watcher instance with the lookup omitted. -/
def watcherA : EventWatcher := { omitLookup := true, maxEventAgeSeconds := 5 }

/-- A watcher instance with the lookup enabled; distinct from watcherA. -/
def watcherB : EventWatcher := { omitLookup := false, maxEventAgeSeconds := 5 }

/-- A sample successful metadata-lookup result. -/
def sampleMetadata : ObjectMetadata :=
  { Labels := [("app", "web")], Annotations := [("team", "core")],
    OwnerReferences :=
      [{ Kind := "ReplicaSet", Name := "web", UID := "uid-rs",
         Controller := true }],
    Deleted := false }

/-- The side effects of a discard check are either nothing or exactly the
warning log followed by the EventsDiscarded increment. -/
theorem discard_actions (g : KubeGlobals) (e : EventWatcher) (event : Event)
    (now : Int) :
    (isEventDiscarded g e event now).snd = [] ∨
    (isEventDiscarded g e event now).snd =
      [WatcherAction.warnDiscarded, WatcherAction.incDiscarded] := by
  unfold isEventDiscarded
  split
  · split <;> simp
  · simp

/-- The timestamp derivation in the code agrees with the priority order
written in the spec. -/
theorem eventTimestamp_eq_spec (event : Event) :
    eventTimestamp event = specDerivedTimestamp event := by
  unfold eventTimestamp specDerivedTimestamp
  cases event.Series with
  | none => by_cases h : event.LastTimestamp = 0 <;> simp [h]
  | some s =>
    by_cases h1 : s.LastObservedTime = 0 <;>
      by_cases h2 : event.LastTimestamp = 0 <;> simp [h1, h2]

/-- C1: the claim says that for a raw event whose derived timestamp age
exceeds the configured maximum, the handler is never invoked and the
events-discarded counter increases by exactly one even when the event
timestamp precedes process start. Evaluating the code at such an input
(timestamp 100, startup time 1000, now 2000, max age 5): the event is
discarded and the handler is not invoked, but no EventsDiscarded
increment is performed, because the increment sits inside the
warning-suppression branch guarded by timestamp.After(startUpTime). -/
theorem C1_discarded_before_startup_not_counted :
    (isEventDiscarded { startUpTime := 1000 } watcherB staleEvent 2000).fst =
      true ∧
    onEvent { startUpTime := 1000 } watcherB staleEvent
      (Except.error LookupError.notFound) 2000 = [] ∧
    List.count WatcherAction.incDiscarded
      (onEvent { startUpTime := 1000 } watcherB staleEvent
        (Except.error LookupError.notFound) 2000) = 0 :=
  ⟨rfl, rfl, rfl⟩

/-- C2 counterexample: the claim says a transport-level request failure
yields a non-nil error for both adapters and that a success response
always yields nil. At concrete inputs: Teams.Send returns nil on a
transport failure, and returns a non-nil error on a 200 response whose
body carries the Teams rate-limit text; Loki.Send does return an error on
transport failure. -/
theorem C2_counterexample_transport_error_swallowed :
    teamsSend HttpOutcome.transportError = none ∧
    teamsSend (HttpOutcome.response 200 teamsRateLimitText) ≠ none ∧
    lokiSend HttpOutcome.transportError ≠ none := by
  refine ⟨rfl, ?_, by simp [lokiSend]⟩
  simp only [teamsSend]
  norm_num
  simp [strContains]

/-- C2 amended: Loki.Send returns nil exactly on a 2xx response (transport
failures, body-read failures and non-2xx statuses yield errors); Teams.Send
returns nil exactly on a transport-level request failure (which it
swallows) or on a 200 response whose body does not carry the Teams
rate-limit text; every non-200 response, body-read failure or rate-limited
200 response yields an error. -/
theorem C2_send_error_contract (o : HttpOutcome) :
    (lokiSend o = none ↔
      ∃ s b, o = HttpOutcome.response s b ∧ 200 ≤ s ∧ s < 300) ∧
    (teamsSend o = none ↔
      o = HttpOutcome.transportError ∨
      ∃ b, o = HttpOutcome.response 200 b ∧
        strContains b teamsRateLimitText = false) := by
  cases o with
  | transportError => simp [teamsSend, lokiSend]
  | readError s => simp [teamsSend, lokiSend]
  | response s b =>
    constructor
    · constructor
      · intro hx
        simp only [lokiSend] at hx
        split at hx
        · rename_i hcond
          exact ⟨s, b, rfl, hcond.1, hcond.2⟩
        · cases hx
      · rintro ⟨s1, b1, heq, ha, hb⟩
        cases heq
        simp only [lokiSend]
        rw [if_pos ⟨ha, hb⟩]
    · constructor
      · intro hx
        simp only [teamsSend] at hx
        split at hx
        · cases hx
        · rename_i hs200
          split at hx
          · cases hx
          · rename_i hrate
            right
            refine ⟨b, ?_, ?_⟩
            · rw [not_not.mp hs200]
            · simpa using hrate
      · rintro (heq | ⟨b1, heq, hb⟩)
        · cases heq
        · cases heq
          simp only [teamsSend]
          rw [if_neg (fun h => h rfl), if_neg (by simp [hb])]

/-- C3: the age-filter timestamp is derived with the spec's priority order
(series last-observed time when present and non-zero, else the
last-timestamp field when non-zero, else EventTime), and the event is
discarded exactly when now minus that timestamp exceeds the configured
maximum age. specDerivedTimestamp is written from the spec's words;
isEventDiscarded mirrors the code. -/
theorem C3_age_filter_spec_equiv (g : KubeGlobals) (e : EventWatcher)
    (event : Event) (now : Int) :
    (isEventDiscarded g e event now).fst = true ↔
      now - specDerivedTimestamp event > e.maxEventAgeSeconds := by
  unfold isEventDiscarded
  rw [eventTimestamp_eq_spec event]
  by_cases h : now - specDerivedTimestamp event > e.maxEventAgeSeconds
  · simp only [h, if_pos]
    split <;> simp [h]
  · simp [h]

/-- C4: when enrichment is enabled and the event passes the age filter, a
lookup error leaves labels, annotations and owner references empty, sets
the deletion flag exactly when the error is not-found, and the handler is
still invoked with the built event. -/
theorem C4_enrichment_failure_paths (g : KubeGlobals) (e : EventWatcher)
    (event : Event) (now : Int) (err : LookupError)
    (homit : e.omitLookup = false)
    (hpass : (isEventDiscarded g e event now).fst = false) :
    (buildEnhancedEvent e event (Except.error err)).InvolvedObject.Labels =
      [] ∧
    (buildEnhancedEvent e event
      (Except.error err)).InvolvedObject.Annotations = [] ∧
    (buildEnhancedEvent e event
      (Except.error err)).InvolvedObject.OwnerReferences = [] ∧
    (buildEnhancedEvent e event (Except.error err)).InvolvedObject.Deleted =
      isNotFound err ∧
    WatcherAction.invokeHandler (buildEnhancedEvent e event
      (Except.error err)) ∈ onEvent g e event (Except.error err) now := by
  refine ⟨?_, ?_, ?_, ?_, ?_⟩ <;>
    simp [buildEnhancedEvent, onEvent, homit, hpass,
      EnhancedObjectReference.zero] <;>
    cases err <;> simp [isNotFound]

/-- C4 witness: the not-found case at a concrete passing event: deletion
flag true, empty metadata, handler invoked. -/
theorem C4_enrichment_failure_paths_witness :
    (buildEnhancedEvent watcherB freshEvent
      (Except.error LookupError.notFound)).InvolvedObject.Labels = [] ∧
    (buildEnhancedEvent watcherB freshEvent
      (Except.error LookupError.notFound)).InvolvedObject.Annotations = [] ∧
    (buildEnhancedEvent watcherB freshEvent
      (Except.error LookupError.notFound)).InvolvedObject.OwnerReferences =
      [] ∧
    (buildEnhancedEvent watcherB freshEvent
      (Except.error LookupError.notFound)).InvolvedObject.Deleted =
      isNotFound LookupError.notFound ∧
    WatcherAction.invokeHandler (buildEnhancedEvent watcherB freshEvent
      (Except.error LookupError.notFound)) ∈
      onEvent { startUpTime := 0 } watcherB freshEvent
        (Except.error LookupError.notFound) 1995 :=
  C4_enrichment_failure_paths { startUpTime := 0 } watcherB freshEvent 1995
    LookupError.notFound rfl (by decide)

/-- C5: a discarded event reaches neither the EventsProcessed increment,
nor the metadata lookup, nor the handler; a passing event produces exactly
one EventsProcessed increment, as the first action, followed by the lookup
(unless omitted) and then the handler invocation. -/
theorem C5_processed_counter_order (g : KubeGlobals) (e : EventWatcher)
    (event : Event) (lookup : Except LookupError ObjectMetadata)
    (now : Int) :
    ((isEventDiscarded g e event now).fst = true →
      WatcherAction.incProcessed ∉ onEvent g e event lookup now ∧
      (∀ r, WatcherAction.lookupMetadata r ∉ onEvent g e event lookup now) ∧
      (∀ ev, WatcherAction.invokeHandler ev ∉
        onEvent g e event lookup now)) ∧
    ((isEventDiscarded g e event now).fst = false →
      onEvent g e event lookup now =
        WatcherAction.incProcessed ::
          ((if e.omitLookup then []
            else [WatcherAction.lookupMetadata event.InvolvedObject]) ++
           [WatcherAction.invokeHandler
             (buildEnhancedEvent e event lookup)])) := by
  constructor
  · intro h
    unfold onEvent
    rcases discard_actions g e event now with hs | hs <;> simp [h, hs]
  · intro h
    unfold onEvent
    simp [h]

/-- C5 witness: at a concrete discarded event the handler is not invoked;
at a concrete passing event the trace is the increment, the lookup, then
the handler invocation. -/
theorem C5_processed_counter_order_witness :
    WatcherAction.invokeHandler (buildEnhancedEvent watcherB staleEvent
      (Except.error LookupError.notFound)) ∉
      onEvent { startUpTime := 0 } watcherB staleEvent
        (Except.error LookupError.notFound) 2000 ∧
    onEvent { startUpTime := 0 } watcherB freshEvent
      (Except.error LookupError.notFound) 1995 =
      WatcherAction.incProcessed ::
        ((if watcherB.omitLookup then []
          else [WatcherAction.lookupMetadata freshEvent.InvolvedObject]) ++
         [WatcherAction.invokeHandler (buildEnhancedEvent watcherB freshEvent
           (Except.error LookupError.notFound))]) :=
  ⟨((C5_processed_counter_order { startUpTime := 0 } watcherB staleEvent
      (Except.error LookupError.notFound) 2000).1 (by decide)).2.2 _,
   (C5_processed_counter_order { startUpTime := 0 } watcherB freshEvent
      (Except.error LookupError.notFound) 1995).2 (by decide)⟩

/-- C6: an add notification and an update notification are processed
through the same onEvent path (the update using only the new object), and
a delete notification performs no action at all. -/
theorem C6_notification_dispatch (g : KubeGlobals) (e : EventWatcher)
    (oldObj newObj obj : Event) (isInInitialList : Bool)
    (lookup : Except LookupError ObjectMetadata) (now : Int) :
    OnAdd g e obj isInInitialList lookup now = onEvent g e obj lookup now ∧
    OnUpdate g e oldObj newObj lookup now = onEvent g e newObj lookup now ∧
    OnDelete obj = [] :=
  ⟨rfl, rfl, rfl⟩

/-- C7: with omitLookup set, processing never performs a metadata lookup,
the result does not depend on what a lookup would have returned, the built
event carries the involved-object reference unresolved (empty labels,
annotations and owner references, deletion flag false), and a passing
event still reaches the handler with that event. -/
theorem C7_omit_lookup_bypass (g : KubeGlobals) (e : EventWatcher)
    (event : Event) (l1 l2 : Except LookupError ObjectMetadata) (now : Int)
    (homit : e.omitLookup = true) :
    (∀ r, WatcherAction.lookupMetadata r ∉ onEvent g e event l1 now) ∧
    onEvent g e event l1 now = onEvent g e event l2 now ∧
    buildEnhancedEvent e event l1 =
      { Event := { event with ManagedFields := [] },
        InvolvedObject :=
          { ObjectReference := event.InvolvedObject, Labels := [],
            Annotations := [], OwnerReferences := [], Deleted := false } } ∧
    ((isEventDiscarded g e event now).fst = false →
      WatcherAction.invokeHandler (buildEnhancedEvent e event l1) ∈
        onEvent g e event l1 now) := by
  have hbuild : ∀ l, buildEnhancedEvent e event l =
      { Event := { event with ManagedFields := [] },
        InvolvedObject :=
          { ObjectReference := event.InvolvedObject, Labels := [],
            Annotations := [], OwnerReferences := [], Deleted := false } } := by
    intro l
    unfold buildEnhancedEvent
    simp [homit, EnhancedObjectReference.zero]
  refine ⟨?_, ?_, hbuild l1, ?_⟩
  · intro r
    unfold onEvent
    rcases discard_actions g e event now with hs | hs <;>
      by_cases hd : (isEventDiscarded g e event now).fst <;>
        simp [hd, hs, homit]
  · unfold onEvent
    rw [hbuild l1, hbuild l2]
  · intro h
    unfold onEvent
    simp [h, homit]

/-- C7 witness: at concrete inputs with omitLookup set: no lookup action,
the trace is independent of the would-be lookup outcome, the built event is
unresolved, and it reaches the handler. -/
theorem C7_omit_lookup_bypass_witness :
    WatcherAction.lookupMetadata webPodRef ∉
      onEvent { startUpTime := 0 } watcherA freshEvent
        (Except.error LookupError.notFound) 1995 ∧
    onEvent { startUpTime := 0 } watcherA freshEvent
      (Except.error LookupError.notFound) 1995 =
      onEvent { startUpTime := 0 } watcherA freshEvent
        (Except.ok sampleMetadata) 1995 ∧
    buildEnhancedEvent watcherA freshEvent
      (Except.error LookupError.notFound) =
      { Event := { freshEvent with ManagedFields := [] },
        InvolvedObject :=
          { ObjectReference := freshEvent.InvolvedObject, Labels := [],
            Annotations := [], OwnerReferences := [], Deleted := false } } ∧
    WatcherAction.invokeHandler (buildEnhancedEvent watcherA freshEvent
      (Except.error LookupError.notFound)) ∈
      onEvent { startUpTime := 0 } watcherA freshEvent
        (Except.error LookupError.notFound) 1995 :=
  ⟨(C7_omit_lookup_bypass { startUpTime := 0 } watcherA freshEvent
      (Except.error LookupError.notFound) (Except.ok sampleMetadata) 1995
      rfl).1 webPodRef,
   (C7_omit_lookup_bypass { startUpTime := 0 } watcherA freshEvent
      (Except.error LookupError.notFound) (Except.ok sampleMetadata) 1995
      rfl).2.1,
   (C7_omit_lookup_bypass { startUpTime := 0 } watcherA freshEvent
      (Except.error LookupError.notFound) (Except.ok sampleMetadata) 1995
      rfl).2.2.1,
   (C7_omit_lookup_bypass { startUpTime := 0 } watcherA freshEvent
      (Except.error LookupError.notFound) (Except.ok sampleMetadata) 1995
      rfl).2.2.2 (by decide)⟩

/-- C8: every event handed to the handler embeds the raw event's fields
verbatim except that ManagedFields has been stripped to empty; the raw
event itself is consumed immutably (the model processes a value copy). -/
theorem C8_managed_fields_stripped (g : KubeGlobals) (e : EventWatcher)
    (event : Event) (lookup : Except LookupError ObjectMetadata) (now : Int)
    (ev : EnhancedEvent)
    (h : WatcherAction.invokeHandler ev ∈ onEvent g e event lookup now) :
    ev.Event = { event with ManagedFields := [] } := by
  unfold onEvent at h
  by_cases hd : (isEventDiscarded g e event now).fst = true
  · rcases discard_actions g e event now with hs | hs <;> simp [hd, hs] at h
  · simp [hd] at h
    subst h
    unfold buildEnhancedEvent
    split
    · rfl
    · split
      · split <;> rfl
      · rfl

/-- C8 witness: at a concrete passing event, the handled event equals the
raw event with ManagedFields cleared. -/
theorem C8_managed_fields_stripped_witness :
    (buildEnhancedEvent watcherB freshEvent
      (Except.error (LookupError.other "boom"))).Event =
      { freshEvent with ManagedFields := [] } :=
  C8_managed_fields_stripped { startUpTime := 0 } watcherB freshEvent
    (Except.error (LookupError.other "boom")) 1995 _ (by decide)

/-- C9 counterexample: the claim says the process-start timestamp is
per-watcher state and the setter on one instance does not change another
instance's discard-counting. At concrete inputs: watcherA and watcherB are
distinct instances; before the setter is invoked on watcherA, watcherB's
processing of the stale event increments EventsDiscarded once; after
setStartUpTime is invoked on watcherA, the same processing by watcherB
performs no increment, because startUpTime is a package-level global the
setter reassigns for every instance. -/
theorem C9_counterexample_shared_startup :
    watcherA ≠ watcherB ∧
    List.count WatcherAction.incDiscarded
      (onEvent { startUpTime := 0 } watcherB staleEvent
        (Except.error LookupError.notFound) 2000) = 1 ∧
    List.count WatcherAction.incDiscarded
      (onEvent (setStartUpTime watcherA { startUpTime := 0 } 1000) watcherB
        staleEvent (Except.error LookupError.notFound) 2000) = 0 := by
  decide

/-- C9 amended: the process-start timestamp is package-global state shared
by every EventWatcher: the setter ignores its receiver and reassigns the
single global value, so invoking it on any instance changes the
discard-counting and warning behavior of all instances. -/
theorem C9_setter_receiver_independent (w w2 : EventWatcher)
    (g : KubeGlobals) (t : Int) :
    setStartUpTime w g t = { startUpTime := t } ∧
    setStartUpTime w g t = setStartUpTime w2 g t :=
  ⟨rfl, rfl⟩

/-- C10: on every path that reaches the handler (lookup omitted, lookup
failed with not-found or another error, lookup succeeded), the handled
event's involved-object reference is set to the raw event's InvolvedObject
field. -/
theorem C10_object_reference_always_set (g : KubeGlobals)
    (e : EventWatcher) (event : Event)
    (lookup : Except LookupError ObjectMetadata) (now : Int)
    (ev : EnhancedEvent)
    (h : WatcherAction.invokeHandler ev ∈ onEvent g e event lookup now) :
    ev.InvolvedObject.ObjectReference = event.InvolvedObject := by
  unfold onEvent at h
  by_cases hd : (isEventDiscarded g e event now).fst = true
  · rcases discard_actions g e event now with hs | hs <;> simp [hd, hs] at h
  · simp [hd] at h
    subst h
    unfold buildEnhancedEvent
    split
    · rfl
    · split
      · split <;> rfl
      · rfl

/-- C10 witness: at a concrete passing event on the successful-lookup
path, the handled event's object reference equals the raw involved
object. -/
theorem C10_object_reference_always_set_witness :
    (buildEnhancedEvent watcherB freshEvent
      (Except.ok sampleMetadata)).InvolvedObject.ObjectReference =
      freshEvent.InvolvedObject :=
  C10_object_reference_always_set { startUpTime := 0 } watcherB freshEvent
    (Except.ok sampleMetadata) 1995 _ (by decide)
